import Mathlib

/-!
Verification of the release-tracking and deployment-orchestration engine in
`src/django_fabdeploy.py` (plus its `doc/sample_fabfile.py` and `setup.py`).

Shallow embedding: every pure computation of the source is translated to an
executable Lean definition under the source's name.  Effectful code
(remote command execution, file transfer, the confirmation prompt, the
ledger file) is parameterised by explicit oracle inputs, following the
collaborator interfaces of the design document (Exec/Transfer/Confirm).
Python exceptions that the source can raise (ValueError, IndexError,
AttributeError, fabric's SystemExit) are modelled with `Except Unit` or an
explicit `Outcome`/`RunResult` constructor.
-/

namespace Fabdeploy

instance {ε α : Type _} [DecidableEq ε] [DecidableEq α] : DecidableEq (Except ε α) := fun a b =>
  match a, b with
  | .ok x, .ok y =>
    if h : x = y then .isTrue (by rw [h]) else .isFalse (by intro hc; cases hc; exact h rfl)
  | .error x, .error y =>
    if h : x = y then .isTrue (by rw [h]) else .isFalse (by intro hc; cases hc; exact h rfl)
  | .ok _, .error _ => .isFalse (by intro hc; cases hc)
  | .error _, .ok _ => .isFalse (by intro hc; cases hc)

/-! ### distutils.version.LooseVersion

The source compares every version with `LooseVersion` (Python 2).
`LooseVersion.parse` tokenises the string with the regular expression
`(\d+ | [a-z]+ | \.)`: maximal digit runs become ints, maximal lowercase
runs become strings, each dot is dropped, and any text between matches
(maximal runs of remaining characters) is kept as a string.  Comparison is
Python 2 list comparison: elementwise, ints numerically, strings by code
point, and an int always sorts below a string (CPython 2 compares the type
names "int" < "str"/"unicode"). -/

inductive VComp where
  | num (n : Nat)
  | str (s : List Char)
deriving DecidableEq, Repr

/-- Python `int(c)` for a single digit character. -/
def digitVal (c : Char) : Nat := c.toNat - 48

/-- Character class used by the LooseVersion tokeniser:
0 = digit, 1 = lowercase letter, 2 = dot, 3 = anything else. -/
def classifyChar (c : Char) : Nat :=
  if c.isDigit then 0
  else if c.isLower then 1
  else if c == '.' then 2
  else 3

/-- Maximal runs of characters of one class, in order. -/
def charRuns : List Char → List (Nat × List Char)
  | [] => []
  | c :: cs =>
    match charRuns cs with
    | [] => [(classifyChar c, [c])]
    | (k, r) :: rest =>
      if classifyChar c == k then (k, c :: r) :: rest
      else (classifyChar c, [c]) :: (k, r) :: rest

def natOfDigits (l : List Char) : Nat :=
  l.foldl (fun a c => a * 10 + digitVal c) 0

/-- `LooseVersion.parse`: digit runs become ints, dots are dropped,
everything else stays a string component. -/
def looseParse (s : String) : List VComp :=
  (charRuns s.data).filterMap fun kr =>
    if kr.1 == 0 then some (.num (natOfDigits kr.2))
    else if kr.1 == 2 then none
    else some (.str kr.2)

structure LooseVersion where
  version : List VComp
deriving DecidableEq, Repr

/-- `LooseVersion(s)`.  Only the parsed component list is kept: the
source's `vstring` field is used for display only, and reparsing the
stored string always reproduces the same component list. -/
def looseVersion (s : String) : LooseVersion := ⟨looseParse s⟩

def charListCmp : List Char → List Char → Ordering
  | [], [] => .eq
  | [], _ :: _ => .lt
  | _ :: _, [] => .gt
  | a :: as, b :: bs =>
    if a.toNat < b.toNat then .lt
    else if b.toNat < a.toNat then .gt
    else charListCmp as bs

def vcompCmp : VComp → VComp → Ordering
  | .num a, .num b => compare a b
  | .str a, .str b => charListCmp a b
  | .num _, .str _ => .lt
  | .str _, .num _ => .gt

def vlistCmp : List VComp → List VComp → Ordering
  | [], [] => .eq
  | [], _ :: _ => .lt
  | _ :: _, [] => .gt
  | a :: as, b :: bs =>
    match vcompCmp a b with
    | .eq => vlistCmp as bs
    | o => o

/-- Python 2 `cmp` on two LooseVersions. -/
def lvCmp (a b : LooseVersion) : Ordering := vlistCmp a.version b.version

/-! ### String helpers with Python semantics

All string manipulation is done on `List Char` with structural recursion so
that every definition evaluates inside the kernel. -/

def pyStartsWith (s pre : String) : Bool := pre.data.isPrefixOf s.data

def pyEndsWith (s suf : String) : Bool := suf.data.isSuffixOf s.data

/-- Python `s.split(sep, maxsplit)` for a one-character separator: split at
each occurrence of `sep`, at most `n` times, keeping empty fields. -/
def pySplitNAux (sep : Char) : Nat → List Char → List Char → List (List Char)
  | _, acc, [] => [acc.reverse]
  | 0, acc, c :: cs => pySplitNAux sep 0 (c :: acc) cs
  | Nat.succ n, acc, c :: cs =>
    if c == sep then acc.reverse :: pySplitNAux sep n [] cs
    else pySplitNAux sep (Nat.succ n) (c :: acc) cs

def pySplitN (sep : Char) (n : Nat) (s : String) : List String :=
  (pySplitNAux sep n [] s.data).map List.asString

/-- Python `s.split(sep)` (no maxsplit) for a one-character separator. -/
def splitCharAux (sep : Char) : List Char → List Char → List (List Char)
  | acc, [] => [acc.reverse]
  | acc, c :: cs =>
    if c == sep then acc.reverse :: splitCharAux sep [] cs
    else splitCharAux sep (c :: acc) cs

def splitChar (sep : Char) (s : String) : List String :=
  (splitCharAux sep [] s.data).map List.asString

/-- Python `spec.split("==")`: split at each non-overlapping occurrence of
the two-character separator `==`, left to right. -/
def pySplitEqAux : List Char → List Char → List (List Char)
  | acc, '=' :: '=' :: cs => acc.reverse :: pySplitEqAux [] cs
  | acc, c :: cs => pySplitEqAux (c :: acc) cs
  | acc, [] => [acc.reverse]

def pySplitEq (s : String) : List String :=
  (pySplitEqAux [] s.data).map List.asString

/-- Python whitespace stripped by `unicode.strip()`. -/
def pySpace (c : Char) : Bool :=
  c == ' ' || c == '\t' || c == '\n' || c == '\r' ||
    c == Char.ofNat 11 || c == Char.ofNat 12

def pyStrip (s : String) : String :=
  ((s.data.dropWhile pySpace).reverse.dropWhile pySpace).reverse.asString

/-- Python `s.lower()` (the source only feeds it ASCII answers). -/
def pyLower (s : String) : String := (s.data.map Char.toLower).asString

/-- Python `s.replace(old, new)` for one-character old/new, as in the
source's `pkg.replace('_', '-')`. -/
def pyReplace (old new : Char) (s : String) : String :=
  (s.data.map (fun c => if c == old then new else c)).asString

/-- `os.path.basename`: everything after the last `/`. -/
def basename (path : String) : String :=
  (splitChar '/' path).getLastD path

def dropRightStr (s : String) (n : Nat) : String :=
  (s.data.take (s.data.length - n)).asString

/-! ### get_platform_tags

Modelled from the spec (external collaborator): the source delegates to
`pip.wheel.Wheel(wheel).pyversions`, i.e. the external pip wheel-name
parser.  Per the design document, a wheel file name is
`<package>-<version>(-<build>)?-<pyver>-<abi>-<platform>.whl`; the python
version tags are the third hyphen-separated field from the end, split on
dots (so `py2.py3` yields two tags).  Names that do not have the five
mandatory fields yield no tags (pip would reject the name). -/
def get_platform_tags (wheel : String) : List String :=
  let base := if pyEndsWith wheel ".whl" then dropRightStr wheel 4 else wheel
  match (splitChar '-' base).reverse with
  | _plat :: _abi :: pyver :: _ :: _ :: _ => splitChar '.' pyver
  | _ => []

/-! ### PkgSpec, PkgSpecList and the wheel matcher -/

/-- `PyVersionInfo = NamedTuple(major, minor)`. -/
structure PyVersionInfo where
  major : Nat
  minor : Nat
deriving DecidableEq, Repr

/-- `PkgSpec`: a package with a specified version and a wheel file. -/
structure PkgSpec where
  pkg : String
  version : LooseVersion
  wheel : String
deriving DecidableEq, Repr

/-- `PkgSpecList`: a package in a certain release with matching wheels;
`wheels` stores `(get_platform_tags w, w)` pairs. -/
structure PkgSpecList where
  pkg : String
  version : LooseVersion
  wheels : List (List String × String)
deriving DecidableEq, Repr

/-- The `PkgSpecList.__init__` constructor. -/
def PkgSpecList.init (pkg version : String) (wheels : List String) : PkgSpecList :=
  ⟨pkg, looseVersion version, wheels.map (fun w => (get_platform_tags w, w))⟩

/-- `PkgSpecList.add_wheel`: appends, with no version or duplicate check. -/
def PkgSpecList.add_wheel (s : PkgSpecList) (wheel : String) : PkgSpecList :=
  { s with wheels := s.wheels ++ [(get_platform_tags wheel, wheel)] }

/-- Python `v[-2], v[-1]` (raises IndexError on tags shorter than 2). -/
def last2 (v : String) : Except Unit (Char × Char) :=
  match v.data.reverse with
  | l :: p :: _ => .ok (p, l)
  | _ => .error ()

/-- Python `int(c)` on one character: a ValueError unless it is a digit. -/
def pyInt (c : Char) : Except Unit Nat :=
  if c.isDigit then .ok (digitVal c) else .error ()

/-- One tag test of the first `get_wheel` loop:
`v[-2].isdigit() and int(v[-2]) == major and int(v[-1]) == minor`,
with Python's left-to-right short-circuit evaluation (so `int(v[-1])` is
only reached - and can only raise - when `int(v[-2]) == major`). -/
def exactTagMatch (major minor : Nat) (v : String) : Except Unit Bool := do
  let pl ← last2 v
  if pl.1.isDigit then
    if digitVal pl.1 == major then
      let lv ← pyInt pl.2
      pure (lv == minor)
    else pure false
  else pure false

/-- One tag test of the second `get_wheel` loop:
`not v[-2].isdigit() and (major==2 and v[-1]=='2' or major==3 and v[-1]=='3')`. -/
def genericTagMatch (major : Nat) (v : String) : Except Unit Bool := do
  let pl ← last2 v
  pure (!pl.1.isDigit && ((major == 2 && pl.2 == '2') || (major == 3 && pl.2 == '3')))

/-- Inner `for v in vs` loop of `get_wheel`: stops at the first tag that
matches, propagating any exception raised while testing. -/
def anyTagM (f : String → Except Unit Bool) : List String → Except Unit Bool
  | [] => .ok false
  | v :: vs => do
    if (← f v) then pure true else anyTagM f vs

/-- Outer `for vs, w in self.wheels` loop of `get_wheel`: returns the first
wheel one of whose tags matches. -/
def findWheelM (f : String → Except Unit Bool) : List (List String × String) → Except Unit (Option String)
  | [] => .ok none
  | vsw :: rest => do
    if (← anyTagM f vsw.1) then pure (some vsw.2) else findWheelM f rest

/-- `PkgSpecList.get_wheel`: the two sequential loops of the source - first
the exact (major, minor) pass over all wheels, then the generic-family
pass, then `None`. -/
def PkgSpecList.get_wheel (s : PkgSpecList) (py : PyVersionInfo) : Except Unit (Option String) := do
  match (← findWheelM (exactTagMatch py.major py.minor) s.wheels) with
  | some w => pure (some w)
  | none => findWheelM (genericTagMatch py.major) s.wheels

/-! ### PkgRepository (the Catalog) -/

/-- `PkgRepository(Dict[unicode, PkgSpecList])`, modelled as a lookup
function (the source only ever reads it through `get`). -/
def PkgRepository : Type := String → Option PkgSpecList

def PkgRepository.empty : PkgRepository := fun _ => none

def PkgRepository.update (r : PkgRepository) (k : String) (v : PkgSpecList) : PkgRepository :=
  fun q => if q = k then some v else r q

/-- `PkgRepository.add_wheel`: replace on a strictly newer version (or no
entry), append on an equal version, ignore an older one; the Bool reports
whether it was added. -/
def PkgRepository.add_wheel (r : PkgRepository) (pkg version wheel : String) : PkgRepository × Bool :=
  match r pkg with
  | none => (r.update pkg (PkgSpecList.init pkg version [wheel]), true)
  | some old =>
    if lvCmp (looseVersion version) old.version == .gt then
      (r.update pkg (PkgSpecList.init pkg version [wheel]), true)
    else if lvCmp (looseVersion version) old.version == .eq then
      (r.update pkg (old.add_wheel wheel), true)
    else (r, false)

/-! ### Configuration objects and the install planner -/

/-- `ProjectConf` (the deployment-relevant fields: its settings module and
the migrate flag; the `user` field only affects the external settings
context). -/
structure ProjectConf where
  settings_module : String
  migrate : Bool
deriving DecidableEq, Repr

/-- `VirtualenvConf` - one target: the back-reference to its `HostConf` is
modelled by storing the host name directly (design note §9). -/
structure VirtualenvConf where
  hostname : String
  vpy_path : String
  ssh_user : String
  vpy_user : String
  requirements : List (String × Option LooseVersion)
  site_packages : List String
  projects : List ProjectConf
deriving DecidableEq, Repr

/-- `unicode(vpy) = "%s:%s" % (self.host, self.vpy_path)` - the target id
used in ledger entries. -/
def VirtualenvConf.name (v : VirtualenvConf) : String :=
  v.hostname ++ ":" ++ v.vpy_path

/-- `ToInstallResult` - the install plan. -/
structure ToInstallResult where
  installables : List String
  missing : List String
  ahead : List PkgSpec
deriving DecidableEq, Repr

/-- One row of the planner's intermediate list:
`(pkg, release_log.get_latest(pkg), wheel, installed.get(pkg))`.  An
installed package of unknown version and an uninstalled package are
indistinguishable here, exactly as in the source (`installed.get` returns
`None` for both). -/
structure PlanRow where
  pkg : String
  spec : Option PkgSpecList
  wheel : Option String
  version : Option LooseVersion
deriving Repr

/-- `spec.get_wheel(pyversion) if spec is not None else None` where
`spec = release_log.get_latest(pkg)`. -/
def matchedWheel (latest : PkgRepository) (pyv : PyVersionInfo) (pkg : String) :
    Except Unit (Option String) :=
  match latest pkg with
  | some s => s.get_wheel pyv
  | none => pure none

def planRow (latest : PkgRepository) (installed : String → Option LooseVersion)
    (pyv : PyVersionInfo) (pkg : String) : Except Unit PlanRow := do
  let w ← matchedWheel latest pyv pkg
  pure ⟨pkg, latest pkg, w, installed pkg⟩

/-- Python's eager list comprehension over a fallible body: left to right,
the first raised exception propagates. -/
def mapExcept (f : α → Except Unit β) : List α → Except Unit (List β)
  | [] => .ok []
  | a :: l => do
    let b ← f a
    let bs ← mapExcept f l
    pure (b :: bs)

/-- `self.requirements.keys() + self.site_packages`. -/
def pkgsOf (v : VirtualenvConf) : List String :=
  v.requirements.map Prod.fst ++ v.site_packages

/-- `VirtualenvConf.get_pkgs_to_install`.  `latest` is the repository held
by the `ReleaseLog` (`release_log.get_latest`), `installed` stands for the
external `get_installed_pkgs()` call (pip freeze on the target).  The three
result lists are the source's three comprehensions over the same
intermediate list.  The `(some w, some ver, none)` row is unreachable (a
wheel is only matched when a catalog entry exists); the source would raise
there (`spec.version` on `None`). -/
def VirtualenvConf.get_pkgs_to_install (v : VirtualenvConf) (latest : PkgRepository)
    (installed : String → Option LooseVersion) (pyv : PyVersionInfo) :
    Except Unit ToInstallResult := do
  let rows ← mapExcept (planRow latest installed pyv) (pkgsOf v)
  pure {
    installables := rows.filterMap fun r =>
      match r.wheel, r.version, r.spec with
      | some w, none, _ => some w
      | some w, some ver, some s => if lvCmp s.version ver == .gt then some w else none
      | some _, some _, none => none
      | none, _, _ => none
    missing := rows.filterMap fun r =>
      match r.wheel with
      | none => some r.pkg
      | some _ => none
    ahead := rows.filterMap fun r =>
      match r.wheel, r.version, r.spec with
      | some w, some ver, some s =>
        if lvCmp s.version ver == .lt then some ⟨r.pkg, ver, w⟩ else none
      | _, _, _ => none }

/-! ### Ledger entries and the event trace

A `LedgerEntry` written by the source is one line of the release log; the
orchestration claims additionally need the install-command invocations and
web-service reloads, so the model records one unified event trace.
Timestamps are produced by the external clock and carry no information the
claims depend on, so they are omitted from the constructors. -/

inductive Event where
  | release (pkg version wheel : String)
  | install (vpy wheel : String)
  | error (vpy msg : String)
  | aborting (vpy msg : String)
  | installCmd (vpy wheel : String)
  | reload (host vpy : String)
deriving DecidableEq, Repr

def countAborting (vpy : String) (t : List Event) : Nat :=
  (t.filter fun e => match e with | .aborting v _ => v == vpy | _ => false).length

def countInstallEntries (vpy wheel : String) (t : List Event) : Nat :=
  (t.filter fun e => match e with | .install v w => v == vpy && w == wheel | _ => false).length

def installEntriesFor (vpy : String) (t : List Event) : List Event :=
  t.filter fun e => match e with | .install v _ => v == vpy | _ => false

def reloadsIn (t : List Event) : List Event :=
  t.filter fun e => match e with | .reload _ _ => true | _ => false

def countReloads (host : String) (t : List Event) : Nat :=
  (t.filter fun e => match e with | .reload h _ => h == host | _ => false).length

/-! ### ReleaseLog replay (`_read_entries`) -/

/-- Processing of one line of the release log file, from the loop body of
`ReleaseLog._read_entries`: only `release:`-prefixed lines are interpreted;
those are split as `tag, spec, wheel, stamp = l.strip().split(" ", 3)` and
`pkg, version = spec.split('==')`, both unpackings raising ValueError when
the number of fields is not exactly right. -/
def readStep (r : PkgRepository) (l : String) : Except Unit PkgRepository :=
  if pyStartsWith l "release:" then
    match pySplitN ' ' 3 (pyStrip l) with
    | [_tag, spec, wheel, _stamp] =>
      match pySplitEq spec with
      | [pkg, version] => .ok (r.add_wheel pkg version wheel).1
      | _ => .error ()
    | _ => .error ()
  else .ok r

/-- `ReleaseLog._read_entries`, folded over the file's lines in order,
starting from `r` (the source starts from an empty `PkgRepository`). -/
def read_entries (r : PkgRepository) : List String → Except Unit PkgRepository
  | [] => .ok r
  | l :: ls => do
    let r1 ← readStep r l
    read_entries r1 ls

/-! ### Wheel intake (`LocalConf.task_add_wheel`) -/

/-- The local state `task_add_wheel` acts on: the basenames present in the
local wheel store (`os.path.exists` on the target path), the in-memory
catalog, and the ledger lines appended so far. -/
structure IntakeState where
  store : List String
  catalog : PkgRepository
  ledger : List Event

/-- Python 2 `tag == py_version` where `tag` is a string and `py_version`
is a list: comparing values of different types is always false (the
source's duplicate-platform test `any(py_version in v for v, w in ...)`
compares the tag *list* against each tag *string*, so it never fires). -/
def pyStrEqList (_tag : String) (_pyVersion : List String) : Bool := false

/-- `ReleaseLog.add_release`: append a `release:` ledger line and update
the catalog through the same `PkgRepository.add_wheel` merge. -/
def add_release (st : IntakeState) (pkg version wheel : String) : IntakeState :=
  { st with
    ledger := st.ledger ++ [.release pkg version wheel]
    catalog := (st.catalog.add_wheel pkg version wheel).1 }

/-- One iteration of the `for path in pathnames` loop of `task_add_wheel`.
The Bool is true when the source executes `return`, abandoning the rest of
the batch; `.error` is the ValueError of `basepath.split("-", 2)` unpacking
into three names when the basename has fewer than two hyphens. -/
def intakeStep (st : IntakeState) (path : String) : Except Unit (IntakeState × Bool) :=
  if pyEndsWith path ".whl" then
    let basepath := basename path
    if st.store.contains basepath then
      -- warn('wheel %s already exists, ignoring'): loop continues
      .ok (st, false)
    else
      match pySplitN '-' 2 basepath with
      | [pkg, version, _rest] =>
        let proceed : IntakeState :=
          -- copy(path, target_path); pkg = pkg.replace('_', '-'); add_release
          add_release { st with store := st.store ++ [basepath] }
            (pyReplace '_' '-' pkg) version basepath
        match st.catalog pkg with
        | some existing_pkg =>
          if lvCmp (looseVersion version) existing_pkg.version == .lt then
            -- warn('wheel %s is out of date, ignoring'); return
            .ok (st, true)
          else if lvCmp (looseVersion version) existing_pkg.version == .eq then
            let py_version := get_platform_tags basepath
            if existing_pkg.wheels.any (fun vw => vw.1.any (fun tag => pyStrEqList tag py_version)) then
              -- warn('wheel %s already in repository, ignoring'); return
              -- (dead branch: the membership test above is always false)
              .ok (st, true)
            else .ok (proceed, false)
          else .ok (proceed, false)
        | none => .ok (proceed, false)
      | _ => .error ()
  else
    -- warn('Ignoring non-wheel-file %s'): loop continues
    .ok (st, false)

/-- `LocalConf.task_add_wheel` over a batch of paths. -/
def task_add_wheel (st : IntakeState) : List String → Except Unit IntakeState
  | [] => .ok st
  | p :: rest => do
    let sb ← intakeStep st p
    if sb.2 then .ok sb.1 else task_add_wheel sb.1 rest

/-! ### Deployment orchestrator (`LocalConf.task_deploy`)

External collaborators are modelled per the design document as oracles
bundled in a `TargetEnv`: `Exec` success flags for mkdir/install/migrate,
the `Transfer` success flag, the `Confirm` answer, the interpreter version
probe and the installed-package listing.  The outcome of one target's
`try:` body distinguishes the source's control flow: normal completion,
the `Skip` exception (caught), a `fabric.utils.abort` (SystemExit, ends the
whole run after writing the `aborting:` ledger line), and an uncaught
Python exception (also ends the run, with no ledger line). -/

structure TargetEnv where
  pyversion : PyVersionInfo
  installed : String → Option LooseVersion
  confirm : String
  mkdirOk : Bool
  putOk : String → Bool
  installOk : String → Bool
  migrateOk : String → Bool

inductive Outcome where
  | done
  | skipped
  | aborted
  | crashed
deriving DecidableEq, Repr

/-- The `for i, wheel in enumerate(to_install)` loop.  On a failed install
the source formats the abort message with
`", ".join(p.wheel for p in to_install[:i])`; the elements of `to_install`
are wheel file names (strings), which have no `.wheel` attribute, so the
join raises AttributeError unless `to_install[:i]` is empty (`i == 0`) -
in that case `abort` is never reached and no `aborting:` line is written. -/
def installLoop (v : VirtualenvConf) (env : TargetEnv) :
    Nat → List String → List Event × Option Outcome
  | _, [] => ([], none)
  | i, w :: rest =>
    if v.hostname != "localhost" && !env.putOk w then
      ([.aborting v.name ("could not put " ++ w)], some .aborted)
    else if !env.installOk w then
      if i == 0 then
        ([.installCmd v.name w,
          .aborting v.name ("could not install " ++ w ++ " after installing ")],
         some .aborted)
      else
        -- AttributeError while building the abort message: uncaught crash,
        -- and the aborting: ledger line is never written.
        ([.installCmd v.name w], some .crashed)
    else
      let rec' := installLoop v env (i + 1) rest
      (.installCmd v.name w :: .install v.name w :: rec'.1, rec'.2)

/-- The `for proj in vpy.projects` migration loop.  A failed migration
formats its error message with `", ".join(p.wheel for p in to_install)`;
`to_install` is a non-empty list of strings at this point, so the join
raises AttributeError before `log_error` runs: the run crashes and no
`error:` ledger line is written. -/
def migrateLoop (env : TargetEnv) : List ProjectConf → Option Outcome
  | [] => none
  | p :: rest =>
    if p.migrate && !env.migrateOk p.settings_module then some .crashed
    else migrateLoop env rest

/-- The `try:` body of one iteration of `task_deploy`'s target loop.
Returns the events it emits, whether the target was added to
`updated_vpys`, and how the body ended. -/
def stepTarget (latest : PkgRepository) (env : TargetEnv) (v : VirtualenvConf) :
    List Event × Bool × Outcome :=
  match v.get_pkgs_to_install latest env.installed env.pyversion with
  | .error _ => ([], false, .crashed)
  | .ok plan =>
    -- `if ahead: warn(...)` only logs to the transcript
    if !plan.missing.isEmpty then ([], false, .skipped)
    else if plan.installables.isEmpty then ([], false, .skipped)
    else if !(["j", "y"].contains (pyLower env.confirm)) then ([], false, .skipped)
    else if !env.mkdirOk then
      ([.aborting v.name "cannot create wheel directory"], true, .aborted)
    else
      match installLoop v env 0 plan.installables with
      | (es, some out) => (es, true, out)
      | (es, none) =>
        match migrateLoop env v.projects with
        | some out => (es, true, out)
        | none =>
          -- the second `for wheel in to_install: add_install(vpy, wheel)` loop
          (es ++ plan.installables.map (fun w => .install v.name w), true, .done)

/-- `HostConf.reload_webservices`: truncated to the first target when the
host is marked reload-once, one reload command per remaining target. -/
def reload_webservices (reload_once : Bool) (hostname : String)
    (vpys : List VirtualenvConf) : List Event :=
  let vpys := if reload_once then vpys.take 1 else vpys
  vpys.map (fun v => .reload hostname v.name)

/-- First-occurrence deduplication, modelling iteration over the Python
`set(vpy.host for vpy in updated_vpys)` (set iteration order is
unspecified; no claim depends on the order across distinct hosts). -/
def dedupFirstAux : List String → List String → List String
  | _, [] => []
  | seen, h :: t =>
    if seen.contains h then dedupFirstAux seen t
    else h :: dedupFirstAux (h :: seen) t

def hostsOf (updated : List VirtualenvConf) : List String :=
  dedupFirstAux [] (updated.map VirtualenvConf.hostname)

/-- The `for host in set(vpy.host for vpy in updated_vpys)` loop that the
source runs at the end of *every* iteration of the target loop (it is
nested inside the `for vpy in vpys` loop). -/
def reloadPass (reload_once : String → Bool) (selected updated : List VirtualenvConf) :
    List Event :=
  (hostsOf updated).flatMap fun h =>
    reload_webservices (reload_once h) h (selected.filter (fun v => v.hostname == h))

inductive RunResult where
  | finished
  | aborted
  | crashed
deriving DecidableEq, Repr

/-- The `for vpy in vpys` loop of `task_deploy`: each target's `try:` body,
the `except Skip: pass`, then the per-iteration reload loop.  An abort
(SystemExit) or an uncaught exception propagates past `except Skip` and
terminates the whole run, skipping the reload loop of that iteration. -/
def deployLoop (latest : PkgRepository) (envOf : VirtualenvConf → TargetEnv)
    (reload_once : String → Bool) (selected : List VirtualenvConf) :
    List VirtualenvConf → List VirtualenvConf → List Event × RunResult
  | _, [] => ([], .finished)
  | updated, v :: rest =>
    match stepTarget latest (envOf v) v with
    | (es, _, .aborted) => (es, .aborted)
    | (es, _, .crashed) => (es, .crashed)
    | (es, added, _) =>
      let updated' := if added then updated ++ [v] else updated
      let rel := reloadPass reload_once selected updated'
      let next := deployLoop latest envOf reload_once selected updated' rest
      (es ++ rel ++ next.1, next.2)

/-- `LocalConf.task_deploy` on an already-selected, ordered target list
(the name-query selection is not part of any claim). -/
def task_deploy (latest : PkgRepository) (envOf : VirtualenvConf → TargetEnv)
    (reload_once : String → Bool) (selected : List VirtualenvConf) :
    List Event × RunResult :=
  deployLoop latest envOf reload_once selected [] selected

/-! ### Total reformulation of the wheel matcher

`get_wheel` can raise (IndexError on a tag shorter than two characters,
ValueError via `int(v[-1])` when `v[-2]` is the interpreter major digit but
`v[-1]` is no digit).  On well-formed tags it agrees with the total
three-tier search below. -/

/-- A platform tag on which `get_wheel`'s tests cannot raise: at least two
characters, and a digit in second-to-last position forces a digit in last
position. -/
def wfTagB (v : String) : Bool :=
  match v.data.reverse with
  | l :: p :: _ => !p.isDigit || l.isDigit
  | _ => false

def wfEntry (s : PkgSpecList) : Bool :=
  s.wheels.all (fun vw => vw.1.all wfTagB)

/-- A tag that encodes the exact `(major, minor)` interpreter version. -/
def exactTagB (major minor : Nat) (v : String) : Bool :=
  match v.data.reverse with
  | l :: p :: _ => p.isDigit && digitVal p == major && l.isDigit && digitVal l == minor
  | _ => false

/-- A tag that marks a version-independent build of the right interpreter
family. -/
def genericTagB (major : Nat) (v : String) : Bool :=
  match v.data.reverse with
  | l :: p :: _ => !p.isDigit && ((major == 2 && l == '2') || (major == 3 && l == '3'))
  | _ => false

/-- First wheel of the entry one of whose tags satisfies `p`. -/
def firstMatchB (p : String → Bool) (ws : List (List String × String)) : Option String :=
  (ws.find? (fun vw => vw.1.any p)).map Prod.snd

@[simp] theorem ok_bind {ε α β : Type _} (a : α) (f : α → Except ε β) :
    (Except.ok a : Except ε α) >>= f = f a := rfl

@[simp] theorem map_ok {ε α β : Type _} (g : α → β) (a : α) :
    g <$> (Except.ok a : Except ε α) = Except.ok (g a) := rfl

@[simp] theorem pure_eq_ok {ε α : Type _} (a : α) :
    (pure a : Except ε α) = Except.ok a := rfl

/-! ### Per-package planner contributions

What one package name contributes to each of the three plan lists, read off
the three comprehension guards of `get_pkgs_to_install` (every component of
a planner row is a function of the package name alone). -/

def missContrib (latest : PkgRepository) (pyv : PyVersionInfo) (p : String) : Option String :=
  match matchedWheel latest pyv p with
  | .ok none => some p
  | _ => none

def instContrib (latest : PkgRepository) (installed : String → Option LooseVersion)
    (pyv : PyVersionInfo) (p : String) : Option String :=
  match matchedWheel latest pyv p, installed p, latest p with
  | .ok (some w), none, _ => some w
  | .ok (some w), some ver, some s => if lvCmp s.version ver == .gt then some w else none
  | _, _, _ => none

def aheadContrib (latest : PkgRepository) (installed : String → Option LooseVersion)
    (pyv : PyVersionInfo) (p : String) : Option PkgSpec :=
  match matchedWheel latest pyv p, installed p, latest p with
  | .ok (some w), some ver, some s =>
    if lvCmp s.version ver == .lt then some ⟨p, ver, w⟩ else none
  | _, _, _ => none

/-! ### Concrete scenario data used by witnesses and counterexamples -/

/-- Catalog holding only mypkg 1.0 with one universal Python-3 wheel. -/
def catMy : PkgRepository :=
  (PkgRepository.empty.add_wheel "mypkg" "1.0" "mypkg-1.0-py3-none-any.whl").1

/-- A local target requiring `mypkg`, with no projects. -/
def vMy : VirtualenvConf := ⟨"localhost", "/v", "u", "u", [("mypkg", none)], [], []⟩

/-- Oracle where every remote operation succeeds, nothing is installed yet
and the operator confirms. -/
def envOkay : TargetEnv :=
  ⟨⟨3, 7⟩, fun _ => none, "j", true, fun _ => true, fun _ => true, fun _ => true⟩

/-- Catalog holding packages a and b, one universal wheel each. -/
def catAB : PkgRepository :=
  ((PkgRepository.empty.add_wheel "a" "1.0" "a-1.0-py3-none-any.whl").1.add_wheel
    "b" "1.0" "b-1.0-py3-none-any.whl").1

/-- A local target requiring a and b. -/
def vAB : VirtualenvConf := ⟨"localhost", "/v", "u", "u", [("a", none), ("b", none)], [], []⟩

/-- Oracle where installing the second wheel (b's) fails. -/
def envBFail : TargetEnv :=
  ⟨⟨3, 7⟩, fun _ => none, "j", true, fun _ => true,
   fun w => w != "b-1.0-py3-none-any.whl", fun _ => true⟩

/-- Two targets on remote host h. -/
def vH1 : VirtualenvConf := ⟨"h", "/a", "u", "u", [("mypkg", none)], [], []⟩

def vH2 : VirtualenvConf := ⟨"h", "/b", "u", "u", [("mypkg", none)], [], []⟩

/-- Intake state whose catalog already holds b at version 2.0. -/
def stOld : IntakeState :=
  ⟨[], (PkgRepository.empty.add_wheel "b" "2.0" "b-2.0-py3-none-any.whl").1, []⟩

theorem exactTagMatch_wf (major minor : Nat) (v : String) (h : wfTagB v = true) :
    exactTagMatch major minor v = .ok (exactTagB major minor v) := by
  unfold wfTagB at h
  unfold exactTagMatch exactTagB last2
  cases hrev : v.data.reverse with
  | nil => rw [hrev] at h; simp at h
  | cons l tl =>
    cases tl with
    | nil => rw [hrev] at h; simp at h
    | cons p rest =>
      rw [hrev] at h
      simp only [Bool.or_eq_true, Bool.not_eq_true'] at h
      cases hp : p.isDigit with
      | false => simp [hp]
      | true =>
        have hl : l.isDigit = true := by
          rcases h with h | h
          · rw [hp] at h; cases h
          · exact h
        cases hm : (digitVal p == major) with
        | false =>
          have hm' : digitVal p ≠ major := by simpa using hm
          simp [hp, hm']
        | true =>
          have hm' : digitVal p = major := by simpa using hm
          simp [hp, hm', hl, pyInt]

theorem genericTagMatch_wf (major : Nat) (v : String) (h : wfTagB v = true) :
    genericTagMatch major v = .ok (genericTagB major v) := by
  unfold wfTagB at h
  unfold genericTagMatch genericTagB last2
  cases hrev : v.data.reverse with
  | nil => rw [hrev] at h; simp at h
  | cons l tl =>
    cases tl with
    | nil => rw [hrev] at h; simp at h
    | cons p rest => simp

theorem anyTagM_eq (f : String → Except Unit Bool) (g : String → Bool)
    (vs : List String) (h : ∀ v ∈ vs, f v = .ok (g v)) :
    anyTagM f vs = .ok (vs.any g) := by
  induction vs with
  | nil => rfl
  | cons v vs ih =>
    have hv := h v (by simp)
    simp only [anyTagM, List.any_cons, hv, ok_bind]
    cases hg : g v with
    | true => simp [hg]
    | false => simp [hg, ih (fun x hx => h x (by simp [hx]))]

theorem findWheelM_eq (f : String → Except Unit Bool) (g : String → Bool)
    (ws : List (List String × String)) (h : ∀ vw ∈ ws, ∀ v ∈ vw.1, f v = .ok (g v)) :
    findWheelM f ws = .ok (firstMatchB g ws) := by
  induction ws with
  | nil => rfl
  | cons vw ws ih =>
    have hv := anyTagM_eq f g vw.1 (h vw (by simp))
    simp only [findWheelM, firstMatchB, List.find?_cons, hv, ok_bind]
    cases ha : vw.1.any g with
    | true => simp [ha]
    | false =>
      simpa [ha, firstMatchB] using ih (fun x hx v hv => h x (by simp [hx]) v hv)

/-- C2: three-tier wheel selection.  For every catalog entry whose tags are
well formed and every interpreter version, `get_wheel` raises nothing and
returns the first wheel (in insertion order) carrying a tag that encodes
the exact (major, minor) pair; failing that, the first wheel carrying the
generic tag of the interpreter family; failing that, no match. -/
theorem C2_wheel_matcher (s : PkgSpecList) (py : PyVersionInfo)
    (h : wfEntry s = true) :
    s.get_wheel py = .ok
      (match firstMatchB (exactTagB py.major py.minor) s.wheels with
       | some w => some w
       | none => firstMatchB (genericTagB py.major) s.wheels) := by
  have hwf : ∀ vw ∈ s.wheels, ∀ v ∈ vw.1, wfTagB v = true := by
    intro vw hvw v hv
    have := (List.all_eq_true.mp h) vw hvw
    exact (List.all_eq_true.mp this) v hv
  have he := findWheelM_eq (exactTagMatch py.major py.minor) (exactTagB py.major py.minor)
    s.wheels (fun vw hvw v hv => exactTagMatch_wf _ _ v (hwf vw hvw v hv))
  have hg := findWheelM_eq (genericTagMatch py.major) (genericTagB py.major)
    s.wheels (fun vw hvw v hv => genericTagMatch_wf _ v (hwf vw hvw v hv))
  unfold PkgSpecList.get_wheel
  rw [he]
  cases hfm : firstMatchB (exactTagB py.major py.minor) s.wheels with
  | none => simpa [Except.bind] using hg
  | some w => simp [Except.bind]

/-- Witness for C2 at the spec's concrete scenario: an entry holding a
wheel tagged exactly cp38 and a universal py3 wheel. -/
theorem C2_wheel_matcher_witness :
    (wfEntry (PkgSpecList.init "pkg" "1.0"
        ["pkg-1.0-cp38-cp38-manylinux1.whl", "pkg-1.0-py3-none-any.whl"]) = true) ∧
    ((PkgSpecList.init "pkg" "1.0"
        ["pkg-1.0-cp38-cp38-manylinux1.whl", "pkg-1.0-py3-none-any.whl"]).get_wheel ⟨3, 8⟩ = .ok
      (match firstMatchB (exactTagB 3 8) (PkgSpecList.init "pkg" "1.0"
        ["pkg-1.0-cp38-cp38-manylinux1.whl", "pkg-1.0-py3-none-any.whl"]).wheels with
       | some w => some w
       | none => firstMatchB (genericTagB 3) (PkgSpecList.init "pkg" "1.0"
        ["pkg-1.0-cp38-cp38-manylinux1.whl", "pkg-1.0-py3-none-any.whl"]).wheels)) ∧
    ((PkgSpecList.init "pkg" "1.0"
        ["pkg-1.0-cp38-cp38-manylinux1.whl", "pkg-1.0-py3-none-any.whl"]).get_wheel ⟨3, 8⟩ =
      .ok (some "pkg-1.0-cp38-cp38-manylinux1.whl")) ∧
    ((PkgSpecList.init "pkg" "1.0"
        ["pkg-1.0-cp38-cp38-manylinux1.whl", "pkg-1.0-py3-none-any.whl"]).get_wheel ⟨3, 9⟩ =
      .ok (some "pkg-1.0-py3-none-any.whl")) ∧
    ((PkgSpecList.init "pkg" "1.0"
        ["pkg-1.0-cp38-cp38-manylinux1.whl", "pkg-1.0-py3-none-any.whl"]).get_wheel ⟨2, 7⟩ =
      .ok none) :=
  ⟨by decide, C2_wheel_matcher _ ⟨3, 8⟩ (by decide), by decide, by decide, by decide⟩

/-- C1: the catalog merge rule of `PkgRepository.add_wheel` - replace when
there is no entry or the version is strictly newer, append the wheel (no
dedup) on an equal version, ignore a strictly older version - and the
concrete consequence: releasing pkg 1.0, then 2.0, then 1.5 leaves the
entry at 2.0 with the 1.5 wheel absent. -/
theorem C1_catalog_merge :
    (∀ (r : PkgRepository) (pkg version wheel : String), r pkg = none →
      r.add_wheel pkg version wheel = (r.update pkg (PkgSpecList.init pkg version [wheel]), true)) ∧
    (∀ (r : PkgRepository) (pkg version wheel : String) (old : PkgSpecList),
      r pkg = some old → lvCmp (looseVersion version) old.version = .gt →
      r.add_wheel pkg version wheel = (r.update pkg (PkgSpecList.init pkg version [wheel]), true)) ∧
    (∀ (r : PkgRepository) (pkg version wheel : String) (old : PkgSpecList),
      r pkg = some old → lvCmp (looseVersion version) old.version = .eq →
      r.add_wheel pkg version wheel = (r.update pkg (old.add_wheel wheel), true)) ∧
    (∀ (r : PkgRepository) (pkg version wheel : String) (old : PkgSpecList),
      r pkg = some old → lvCmp (looseVersion version) old.version = .lt →
      r.add_wheel pkg version wheel = (r, false)) ∧
    ((((PkgRepository.empty.add_wheel "pkg" "1.0" "pkg-1.0-py3-none-any.whl").1.add_wheel
        "pkg" "2.0" "pkg-2.0-py3-none-any.whl").1.add_wheel
        "pkg" "1.5" "pkg-1.5-py3-none-any.whl").1 "pkg" =
      some (PkgSpecList.init "pkg" "2.0" ["pkg-2.0-py3-none-any.whl"]) ∧
      "pkg-1.5-py3-none-any.whl" ∉
        (PkgSpecList.init "pkg" "2.0" ["pkg-2.0-py3-none-any.whl"]).wheels.map Prod.snd) := by
  refine ⟨?_, ?_, ?_, ?_, by decide, by decide⟩
  · intro r pkg version wheel h
    simp [PkgRepository.add_wheel, h]
  · intro r pkg version wheel old h hgt
    simp only [PkgRepository.add_wheel, h, hgt]
    rfl
  · intro r pkg version wheel old h heq
    simp only [PkgRepository.add_wheel, h, heq]
    rfl
  · intro r pkg version wheel old h hlt
    simp only [PkgRepository.add_wheel, h, hlt]
    rfl

/-- Witness for C1, instantiating the no-entry and strictly-newer cases at
concrete inputs. -/
theorem C1_catalog_merge_witness :
    (PkgRepository.empty "pkg" = none ∧
      PkgRepository.empty.add_wheel "pkg" "1.0" "pkg-1.0-py3-none-any.whl" =
        (PkgRepository.empty.update "pkg"
          (PkgSpecList.init "pkg" "1.0" ["pkg-1.0-py3-none-any.whl"]), true)) ∧
    (lvCmp (looseVersion "2.0") (PkgSpecList.init "pkg" "1.0" ["pkg-1.0-py3-none-any.whl"]).version = .gt) :=
  ⟨⟨rfl, (C1_catalog_merge.1) PkgRepository.empty "pkg" "1.0" "pkg-1.0-py3-none-any.whl" rfl⟩,
    by decide⟩

/-! ### Planner lemmas -/

@[simp] theorem error_bind {ε α β : Type _} (e : ε) (f : α → Except ε β) :
    (Except.error e : Except ε α) >>= f = Except.error e := rfl

@[simp] theorem ordBeq (a b : Ordering) : (a == b) = decide (a = b) := by
  cases a <;> cases b <;> rfl

theorem planRow_ok (latest : PkgRepository) (installed : String → Option LooseVersion)
    (pyv : PyVersionInfo) (p : String) (row : PlanRow)
    (h : planRow latest installed pyv p = .ok row) :
    ∃ w, matchedWheel latest pyv p = .ok w ∧ row = ⟨p, latest p, w, installed p⟩ := by
  unfold planRow at h
  cases hmw : matchedWheel latest pyv p with
  | error e => rw [hmw] at h; simp at h
  | ok w =>
    rw [hmw] at h
    simp only [ok_bind, pure_eq_ok, Except.ok.injEq] at h
    exact ⟨w, rfl, h.symm⟩

theorem mapExcept_ok_filterMap {α β γ : Type _} (f : α → Except Unit β) (g : β → Option γ)
    (d : α → Option γ) (hd : ∀ a b, f a = .ok b → g b = d a) :
    ∀ (l : List α) (rows : List β), mapExcept f l = .ok rows →
      rows.filterMap g = l.filterMap d := by
  intro l
  induction l with
  | nil =>
    intro rows h
    unfold mapExcept at h
    simp only [Except.ok.injEq] at h
    subst h
    rfl
  | cons a l ih =>
    intro rows h
    unfold mapExcept at h
    cases hfa : f a with
    | error e => rw [hfa] at h; simp at h
    | ok b =>
      rw [hfa] at h
      simp only [ok_bind] at h
      cases hml : mapExcept f l with
      | error e => rw [hml] at h; simp at h
      | ok bs =>
        rw [hml] at h
        simp only [ok_bind, pure_eq_ok, Except.ok.injEq] at h
        subst h
        rw [List.filterMap_cons, List.filterMap_cons, hd a b hfa, ih bs hml]

theorem mapExcept_ok_mem {α β : Type _} (f : α → Except Unit β) :
    ∀ (l : List α) (rows : List β), mapExcept f l = .ok rows →
      ∀ a ∈ l, ∃ b, f a = .ok b ∧ b ∈ rows := by
  intro l
  induction l with
  | nil => intro rows _ a ha; cases ha
  | cons a l ih =>
    intro rows h x hx
    unfold mapExcept at h
    cases hfa : f a with
    | error e => rw [hfa] at h; simp at h
    | ok b =>
      rw [hfa] at h
      simp only [ok_bind] at h
      cases hml : mapExcept f l with
      | error e => rw [hml] at h; simp at h
      | ok bs =>
        rw [hml] at h
        simp only [ok_bind, pure_eq_ok, Except.ok.injEq] at h
        subst h
        rcases List.mem_cons.mp hx with hx | hx
        · exact ⟨b, hx ▸ hfa, List.mem_cons_self b bs⟩
        · obtain ⟨c, hc, hcm⟩ := ih bs hml x hx
          exact ⟨c, hc, List.mem_cons_of_mem b hcm⟩

/-- The three plan lists of `get_pkgs_to_install` are exactly the
per-package contributions collected over the iterated package list. -/
theorem planner_lists (v : VirtualenvConf) (latest : PkgRepository)
    (installed : String → Option LooseVersion) (pyv : PyVersionInfo) (r : ToInstallResult)
    (h : v.get_pkgs_to_install latest installed pyv = .ok r) :
    r.installables = (pkgsOf v).filterMap (instContrib latest installed pyv) ∧
    r.missing = (pkgsOf v).filterMap (missContrib latest pyv) ∧
    r.ahead = (pkgsOf v).filterMap (aheadContrib latest installed pyv) := by
  unfold VirtualenvConf.get_pkgs_to_install at h
  cases hm : mapExcept (planRow latest installed pyv) (pkgsOf v) with
  | error e => rw [hm] at h; simp at h
  | ok rows =>
    rw [hm] at h
    simp only [ok_bind, pure_eq_ok, Except.ok.injEq] at h
    subst h
    refine ⟨?_, ?_, ?_⟩
    · apply mapExcept_ok_filterMap _ _ _ ?_ _ rows hm
      intro p row hrow
      obtain ⟨w, hmw, hr⟩ := planRow_ok _ _ _ _ _ hrow
      subst hr
      unfold instContrib
      rw [hmw]
      cases w with
      | none => cases installed p <;> cases latest p <;> rfl
      | some w' => cases installed p <;> cases latest p <;> rfl
    · apply mapExcept_ok_filterMap _ _ _ ?_ _ rows hm
      intro p row hrow
      obtain ⟨w, hmw, hr⟩ := planRow_ok _ _ _ _ _ hrow
      subst hr
      unfold missContrib
      rw [hmw]
      cases w <;> rfl
    · apply mapExcept_ok_filterMap _ _ _ ?_ _ rows hm
      intro p row hrow
      obtain ⟨w, hmw, hr⟩ := planRow_ok _ _ _ _ _ hrow
      subst hr
      unfold aheadContrib
      rw [hmw]
      cases w with
      | none => cases installed p <;> cases latest p <;> rfl
      | some w' => cases installed p <;> cases latest p <;> rfl

/-- C3: planner classification.  For every target, catalog, installed state
and interpreter version on which the planner returns (does not raise), and
every package in the union of the declared requirements and the site-wide
package list: no matching wheel puts the package into `missing`; an
available wheel together with "not installed" or a strictly newer catalog
version puts that wheel into `installables`; an available wheel with a
strictly newer installed version puts the package into `ahead`. -/
theorem C3_planner_classification (v : VirtualenvConf) (latest : PkgRepository)
    (installed : String → Option LooseVersion) (pyv : PyVersionInfo) (r : ToInstallResult)
    (h : v.get_pkgs_to_install latest installed pyv = .ok r) :
    ∀ p ∈ pkgsOf v,
      (matchedWheel latest pyv p = .ok none → p ∈ r.missing) ∧
      (∀ w, matchedWheel latest pyv p = .ok (some w) →
        (installed p = none → w ∈ r.installables) ∧
        (∀ s ver, latest p = some s → installed p = some ver →
          lvCmp s.version ver = .gt → w ∈ r.installables) ∧
        (∀ s ver, latest p = some s → installed p = some ver →
          lvCmp s.version ver = .lt → (⟨p, ver, w⟩ : PkgSpec) ∈ r.ahead)) := by
  obtain ⟨hi, hm, ha⟩ := planner_lists v latest installed pyv r h
  intro p hp
  constructor
  · intro hnone
    rw [hm]
    refine List.mem_filterMap.mpr ⟨p, hp, ?_⟩
    simp [missContrib, hnone]
  · intro w hw
    refine ⟨?_, ?_, ?_⟩
    · intro hinst
      rw [hi]
      refine List.mem_filterMap.mpr ⟨p, hp, ?_⟩
      cases hl : latest p <;> simp [instContrib, hw, hinst, hl]
    · intro s ver hs hver hgt
      rw [hi]
      refine List.mem_filterMap.mpr ⟨p, hp, ?_⟩
      simp [instContrib, hw, hver, hs, hgt]
    · intro s ver hs hver hlt
      rw [ha]
      refine List.mem_filterMap.mpr ⟨p, hp, ?_⟩
      simp [aheadContrib, hw, hver, hs, hlt]

/-- Witness for C3 at the spec's end-to-end scenario: catalog mypkg@1.0
with one universal Python-3 wheel, target requiring mypkg, uninstalled,
interpreter (3,7). -/
theorem C3_planner_classification_witness :
    (vMy.get_pkgs_to_install catMy (fun _ => none) ⟨3, 7⟩ =
      .ok ⟨["mypkg-1.0-py3-none-any.whl"], [], []⟩) ∧
    ("mypkg" ∈ pkgsOf vMy) ∧
    (matchedWheel catMy ⟨3, 7⟩ "mypkg" = .ok (some "mypkg-1.0-py3-none-any.whl")) ∧
    "mypkg-1.0-py3-none-any.whl" ∈
      (⟨["mypkg-1.0-py3-none-any.whl"], [], []⟩ : ToInstallResult).installables :=
  ⟨by decide, by decide, by decide,
    (((C3_planner_classification vMy catMy (fun _ => none) ⟨3, 7⟩
        ⟨["mypkg-1.0-py3-none-any.whl"], [], []⟩ (by decide) "mypkg" (by decide)).2
      "mypkg-1.0-py3-none-any.whl" (by decide)).1 (by decide))⟩

/-- C9: pin noninterference.  The planner reads only the key set of the
requirement mapping, so two targets whose requirements have the same keys
but arbitrarily different pinned versions (and the same site-wide list)
yield identical install plans against the same catalog, installed state
and interpreter version. -/
theorem C9_pin_noninterference (v1 v2 : VirtualenvConf) (latest : PkgRepository)
    (installed : String → Option LooseVersion) (pyv : PyVersionInfo)
    (hk : v1.requirements.map Prod.fst = v2.requirements.map Prod.fst)
    (hs : v1.site_packages = v2.site_packages) :
    v1.get_pkgs_to_install latest installed pyv = v2.get_pkgs_to_install latest installed pyv := by
  unfold VirtualenvConf.get_pkgs_to_install pkgsOf
  rw [hk, hs]

/-- Witness for C9: same key set, pins 1.0 versus 9.9. -/
theorem C9_pin_noninterference_witness :
    ((⟨"localhost", "/v", "u", "u", [("mypkg", some (looseVersion "1.0"))], [], []⟩ :
        VirtualenvConf).requirements.map Prod.fst =
      (⟨"localhost", "/v", "u", "u", [("mypkg", some (looseVersion "9.9"))], [], []⟩ :
        VirtualenvConf).requirements.map Prod.fst) ∧
    ((⟨"localhost", "/v", "u", "u", [("mypkg", some (looseVersion "1.0"))], [], []⟩ :
        VirtualenvConf).get_pkgs_to_install catMy (fun _ => none) ⟨3, 7⟩ =
      (⟨"localhost", "/v", "u", "u", [("mypkg", some (looseVersion "9.9"))], [], []⟩ :
        VirtualenvConf).get_pkgs_to_install catMy (fun _ => none) ⟨3, 7⟩) :=
  ⟨by decide,
    C9_pin_noninterference _ _ catMy (fun _ => none) ⟨3, 7⟩ (by decide) rfl⟩

/-- C10: the three plan lists are per-package contributions; one package's
contribution goes to at most one list; and a package whose wheel is
available and whose installed version equals the catalog version
contributes to none of the three lists. -/
theorem C10_plan_exclusive (v : VirtualenvConf) (latest : PkgRepository)
    (installed : String → Option LooseVersion) (pyv : PyVersionInfo) (r : ToInstallResult)
    (h : v.get_pkgs_to_install latest installed pyv = .ok r) :
    (r.installables = (pkgsOf v).filterMap (instContrib latest installed pyv) ∧
     r.missing = (pkgsOf v).filterMap (missContrib latest pyv) ∧
     r.ahead = (pkgsOf v).filterMap (aheadContrib latest installed pyv)) ∧
    (∀ p, (missContrib latest pyv p).isSome →
      instContrib latest installed pyv p = none ∧ aheadContrib latest installed pyv p = none) ∧
    (∀ p, (instContrib latest installed pyv p).isSome →
      aheadContrib latest installed pyv p = none) ∧
    (∀ p s ver w, latest p = some s → installed p = some ver →
      matchedWheel latest pyv p = .ok (some w) → lvCmp s.version ver = .eq →
      missContrib latest pyv p = none ∧ instContrib latest installed pyv p = none ∧
        aheadContrib latest installed pyv p = none) := by
  refine ⟨planner_lists v latest installed pyv r h, ?_, ?_, ?_⟩
  · intro p hmiss
    unfold missContrib at hmiss
    unfold instContrib aheadContrib
    cases hmw : matchedWheel latest pyv p with
    | error e => rw [hmw] at hmiss; simp at hmiss
    | ok w =>
      rw [hmw] at hmiss
      cases w with
      | none => refine ⟨?_, ?_⟩ <;> cases installed p <;> cases latest p <;> rfl
      | some w' => simp at hmiss
  · intro p hinst
    unfold instContrib at hinst
    unfold aheadContrib
    cases hmw : matchedWheel latest pyv p with
    | error e => rw [hmw] at hinst
    | ok w =>
      rw [hmw] at hinst
      cases w with
      | none => simp at hinst
      | some w' =>
        cases hver : installed p with
        | none => cases latest p <;> rfl
        | some ver =>
          rw [hver] at hinst
          cases hs : latest p with
          | none => rfl
          | some s =>
            rw [hs] at hinst
            cases hcmp : lvCmp s.version ver with
            | lt => simp [hcmp] at hinst
            | eq => simp [hcmp] at hinst
            | gt => simp [hcmp]
  · intro p s ver w hs hver hmw hcmp
    unfold missContrib instContrib aheadContrib
    rw [hmw, hver, hs]
    simp [hcmp]

/-- Witness for C10: the up-to-date package case at concrete inputs -
mypkg installed at 1.0 with catalog at 1.0 contributes to no list. -/
theorem C10_plan_exclusive_witness :
    (vMy.get_pkgs_to_install catMy (fun _ => some (looseVersion "1.0")) ⟨3, 7⟩ =
      .ok ⟨[], [], []⟩) ∧
    (catMy "mypkg" = some (PkgSpecList.init "mypkg" "1.0" ["mypkg-1.0-py3-none-any.whl"])) ∧
    (lvCmp (PkgSpecList.init "mypkg" "1.0" ["mypkg-1.0-py3-none-any.whl"]).version
      (looseVersion "1.0") = .eq) ∧
    (missContrib catMy ⟨3, 7⟩ "mypkg" = none ∧
      instContrib catMy (fun _ => some (looseVersion "1.0")) ⟨3, 7⟩ "mypkg" = none ∧
      aheadContrib catMy (fun _ => some (looseVersion "1.0")) ⟨3, 7⟩ "mypkg" = none) :=
  ⟨by decide, by decide, by decide,
    (C10_plan_exclusive vMy catMy (fun _ => some (looseVersion "1.0")) ⟨3, 7⟩
        ⟨[], [], []⟩ (by decide)).2.2.2 "mypkg"
      (PkgSpecList.init "mypkg" "1.0" ["mypkg-1.0-py3-none-any.whl"]) (looseVersion "1.0")
      "mypkg-1.0-py3-none-any.whl" (by decide) rfl (by decide) (by decide)⟩

/-! ### Ledger replay (C7) -/

/-- C7 counterexample: a line with a non-release tag is skipped, but the
malformed `release:` line that follows makes the whole replay raise
(ValueError unpacking `l.strip().split(" ", 3)` into four names), so replay
is not raise-free and does not skip malformed release lines. -/
theorem C7_counterexample :
    (read_entries PkgRepository.empty ["install: x: w at t", "release: bad"]).map
      (fun r => r "mypkg") = .error () := by decide

/-- C7 amended: replay processes lines in file order; a line not starting
with the `release:` tag leaves the catalog unchanged (audit-only); a
`release:` line whose strip-and-split yields exactly four space-separated
fields and whose spec splits into exactly `pkg==version` is fed into the
catalog merge; but a `release:` line that does not parse raises and fails
the whole replay (it is not skipped). -/
theorem C7_amended :
    (∀ (r : PkgRepository) (l : String), pyStartsWith l "release:" = false →
      readStep r l = .ok r) ∧
    (∀ (r : PkgRepository) (l tag spec wheel stamp pkg version : String),
      pyStartsWith l "release:" = true →
      pySplitN ' ' 3 (pyStrip l) = [tag, spec, wheel, stamp] →
      pySplitEq spec = [pkg, version] →
      readStep r l = .ok (r.add_wheel pkg version wheel).1) ∧
    (∀ (r r1 : PkgRepository) (l : String) (ls : List String),
      readStep r l = .ok r1 → read_entries r (l :: ls) = read_entries r1 ls) ∧
    (∀ (r : PkgRepository) (l : String) (ls : List String),
      readStep r l = .error () → read_entries r (l :: ls) = .error ()) := by
  refine ⟨?_, ?_, ?_, ?_⟩
  · intro r l h
    simp [readStep, h]
  · intro r l tag spec wheel stamp pkg version h1 h2 h3
    simp [readStep, h1, h2, h3]
  · intro r r1 l ls h
    conv_lhs => rw [read_entries]
    rw [h]
    simp
  · intro r l ls h
    conv_lhs => rw [read_entries]
    rw [h]
    rfl

/-- Witness for C7, feeding one well-formed release line into an empty
catalog. -/
theorem C7_amended_witness :
    (pyStartsWith "release: mypkg==1.0 w.whl at today" "release:" = true) ∧
    (pySplitN ' ' 3 (pyStrip "release: mypkg==1.0 w.whl at today") =
      ["release:", "mypkg==1.0", "w.whl", "at today"]) ∧
    (pySplitEq "mypkg==1.0" = ["mypkg", "1.0"]) ∧
    (readStep PkgRepository.empty "release: mypkg==1.0 w.whl at today" =
      .ok (PkgRepository.empty.add_wheel "mypkg" "1.0" "w.whl").1) :=
  ⟨by decide, by decide, by decide,
    C7_amended.2.1 PkgRepository.empty "release: mypkg==1.0 w.whl at today"
      "release:" "mypkg==1.0" "w.whl" "at today" "mypkg" "1.0"
      (by decide) (by decide) (by decide)⟩

/-! ### Wheel intake (C8) -/

theorem any_pyStrEqList (ws : List (List String × String)) (x : List String) :
    (ws.any fun vw => vw.1.any fun tag => pyStrEqList tag x) = false := by
  induction ws with
  | nil => rfl
  | cons vw ws ih =>
    simp only [List.any_cons, ih, Bool.or_false]
    induction vw.1 with
    | nil => rfl
    | cons t ts iht => simp [pyStrEqList, iht]

/-- C8 counterexample: with the catalog already holding b at 2.0, the batch
[older b wheel, fresh c wheel] ends at the older wheel's `return`: nothing
is copied and no release entry is written - in particular the c wheel is
not processed, although the same c wheel alone is. -/
theorem C8_counterexample :
    ((task_add_wheel stOld ["b-1.0-py3-none-any.whl", "c-1.0-py3-none-any.whl"]).map
      IntakeState.ledger = .ok []) ∧
    ((task_add_wheel stOld ["b-1.0-py3-none-any.whl", "c-1.0-py3-none-any.whl"]).map
      IntakeState.store = .ok []) ∧
    ((task_add_wheel stOld ["c-1.0-py3-none-any.whl"]).map IntakeState.ledger =
      .ok [.release "c" "1.0" "c-1.0-py3-none-any.whl"]) :=
  ⟨by decide, by decide, by decide⟩

/-- C8 amended: a non-wheel-suffix path and a path already present in the
wheel store are skipped with a warning and do not affect the remaining
paths of the batch; but a path carrying a strictly older version than the
catalog executes `return`, abandoning the whole remaining batch (the
equal-version duplicate-platform branch would do the same, but its
membership test compares a tag list against tag strings and never fires);
every path that falls through these checks is copied into the store and
appends a release ledger entry before the batch continues. -/
theorem C8_amended :
    (∀ (st : IntakeState) (path : String) (rest : List String),
      pyEndsWith path ".whl" = false →
      task_add_wheel st (path :: rest) = task_add_wheel st rest) ∧
    (∀ (st : IntakeState) (path : String) (rest : List String),
      pyEndsWith path ".whl" = true → st.store.contains (basename path) = true →
      task_add_wheel st (path :: rest) = task_add_wheel st rest) ∧
    (∀ (st : IntakeState) (path : String) (rest : List String)
        (pkg version tagpart : String) (ex : PkgSpecList),
      pyEndsWith path ".whl" = true → st.store.contains (basename path) = false →
      pySplitN '-' 2 (basename path) = [pkg, version, tagpart] →
      st.catalog pkg = some ex → lvCmp (looseVersion version) ex.version = .lt →
      task_add_wheel st (path :: rest) = .ok st) ∧
    (∀ (st : IntakeState) (path : String) (rest : List String)
        (pkg version tagpart : String),
      pyEndsWith path ".whl" = true → st.store.contains (basename path) = false →
      pySplitN '-' 2 (basename path) = [pkg, version, tagpart] →
      (st.catalog pkg = none ∨
        ∃ ex, st.catalog pkg = some ex ∧ lvCmp (looseVersion version) ex.version ≠ .lt) →
      task_add_wheel st (path :: rest) =
        task_add_wheel
          (add_release { st with store := st.store ++ [basename path] }
            (pyReplace '_' '-' pkg) version (basename path)) rest) := by
  refine ⟨?_, ?_, ?_, ?_⟩
  · intro st path rest h
    simp [task_add_wheel, intakeStep, h]
  · intro st path rest h1 h2
    have h2m : basename path ∈ st.store := by simpa using h2
    simp [task_add_wheel, intakeStep, h1, h2m]
  · intro st path rest pkg version tagpart ex h1 h2 h3 h4 h5
    have h2m : basename path ∉ st.store := by simpa using h2
    simp [task_add_wheel, intakeStep, h1, h2m, h3, h4, h5]
  · intro st path rest pkg version tagpart h1 h2 h3 h4
    have h2m : basename path ∉ st.store := by simpa using h2
    rcases h4 with h4 | ⟨ex, h4, h5⟩
    · simp [task_add_wheel, intakeStep, h1, h2m, h3, h4]
    · cases hcmp : lvCmp (looseVersion version) ex.version with
      | lt => exact absurd hcmp h5
      | eq =>
        simp [task_add_wheel, intakeStep, h1, h2m, h3, h4, hcmp, any_pyStrEqList]
      | gt =>
        simp [task_add_wheel, intakeStep, h1, h2m, h3, h4, hcmp]

/-- Witness for C8, instantiating the older-version batch abort at the
concrete counterexample input. -/
theorem C8_amended_witness :
    (pyEndsWith "b-1.0-py3-none-any.whl" ".whl" = true) ∧
    (stOld.store.contains (basename "b-1.0-py3-none-any.whl") = false) ∧
    (pySplitN '-' 2 (basename "b-1.0-py3-none-any.whl") = ["b", "1.0", "py3-none-any.whl"]) ∧
    (stOld.catalog "b" = some (PkgSpecList.init "b" "2.0" ["b-2.0-py3-none-any.whl"])) ∧
    (lvCmp (looseVersion "1.0")
      (PkgSpecList.init "b" "2.0" ["b-2.0-py3-none-any.whl"]).version = .lt) ∧
    (task_add_wheel stOld ["b-1.0-py3-none-any.whl", "c-1.0-py3-none-any.whl"] = .ok stOld) :=
  ⟨by decide, by decide, by decide, by decide, by decide,
    C8_amended.2.2.1 stOld "b-1.0-py3-none-any.whl" ["c-1.0-py3-none-any.whl"]
      "b" "1.0" "py3-none-any.whl" (PkgSpecList.init "b" "2.0" ["b-2.0-py3-none-any.whl"])
      (by decide) (by decide) (by decide) (by decide) (by decide)⟩

/-! ### Orchestrator lemmas and claims C4, C5, C6 -/

theorem installLoop_not_done (v : VirtualenvConf) (env : TargetEnv) :
    ∀ (ws : List String) (i : Nat), (installLoop v env i ws).2 ≠ some .done := by
  intro ws
  induction ws with
  | nil => intro i h; exact Option.noConfusion h
  | cons w ws ih =>
    intro i
    simp only [installLoop]
    split
    · simp
    · split
      · split <;> simp
      · exact ih (i + 1)

theorem migrateLoop_not_done (env : TargetEnv) :
    ∀ ps : List ProjectConf, migrateLoop env ps ≠ some .done := by
  intro ps
  induction ps with
  | nil => exact Option.noConfusion
  | cons p ps ih =>
    simp only [migrateLoop]
    split
    · simp
    · exact ih

theorem installLoop_complete (v : VirtualenvConf) (env : TargetEnv) :
    ∀ (ws : List String) (i : Nat) (es : List Event),
      installLoop v env i ws = (es, none) →
      es = ws.flatMap (fun w => [.installCmd v.name w, .install v.name w]) := by
  intro ws
  induction ws with
  | nil =>
    intro i es h
    simp only [installLoop] at h
    simpa using congrArg Prod.fst h.symm
  | cons w ws ih =>
    intro i es h
    simp only [installLoop] at h
    split at h
    · simp at h
    · split at h
      · split at h <;> simp at h
      · cases hrec : installLoop v env (i + 1) ws with
        | mk es2 o2 =>
          rw [hrec] at h
          simp only [Prod.mk.injEq] at h
          obtain ⟨hes, ho⟩ := h
          subst hes
          rw [List.flatMap_cons, ← ih (i + 1) es2 (by rw [hrec, ho])]
          rfl

/-- C5 counterexample: a target that completes with a single installable
wheel gets TWO install ledger entries for that wheel (one in the install
loop, one from the duplicated loop after migration), not one. -/
theorem C5_counterexample :
    countInstallEntries "localhost:/v" "mypkg-1.0-py3-none-any.whl"
      (task_deploy catMy (fun _ => envOkay) (fun _ => false) [vMy]).1 = 2 := by decide

/-- C5 amended: for a target whose `try:` body runs to completion, the
install-upgrade command is invoked once per installable wheel in plan
order, with one install ledger entry appended immediately after each
successful install; after the migration phase the source then appends one
MORE install entry per wheel (the duplicated `for wheel in to_install`
loop), for 2n entries in total. -/
theorem C5_amended (latest : PkgRepository) (env : TargetEnv) (v : VirtualenvConf)
    (plan : ToInstallResult) (es : List Event) (added : Bool)
    (hplan : v.get_pkgs_to_install latest env.installed env.pyversion = .ok plan)
    (hstep : stepTarget latest env v = (es, added, .done)) :
    es = plan.installables.flatMap (fun w => [.installCmd v.name w, .install v.name w])
      ++ plan.installables.map (fun w => .install v.name w) := by
  unfold stepTarget at hstep
  rw [hplan] at hstep
  split at hstep
  · simp at hstep
  · rename_i plan2 heq
    injection heq with heq
    subst heq
    split at hstep
    · simp at hstep
    · split at hstep
      · simp at hstep
      · split at hstep
        · simp at hstep
        · split at hstep
          · simp at hstep
          · cases hil : installLoop v env 0 plan.installables with
            | mk es1 o1 =>
              rw [hil] at hstep
              cases o1 with
              | some out =>
                simp only [Prod.mk.injEq] at hstep
                obtain ⟨-, -, ho⟩ := hstep
                subst ho
                exact absurd
                  (show (installLoop v env 0 plan.installables).2 = some Outcome.done by
                    rw [hil])
                  (installLoop_not_done v env plan.installables 0)
              | none =>
                cases hmig : migrateLoop env v.projects with
                | some out =>
                  rw [hmig] at hstep
                  simp only [Prod.mk.injEq] at hstep
                  obtain ⟨-, -, ho⟩ := hstep
                  subst ho
                  exact absurd hmig (migrateLoop_not_done env v.projects)
                | none =>
                  rw [hmig] at hstep
                  simp only [Prod.mk.injEq] at hstep
                  obtain ⟨hes, -, -⟩ := hstep
                  rw [← hes, installLoop_complete v env plan.installables 0 es1 hil]

/-- Witness for C5's amended statement at the concrete one-wheel run. -/
theorem C5_amended_witness :
    (vMy.get_pkgs_to_install catMy envOkay.installed envOkay.pyversion =
      .ok ⟨["mypkg-1.0-py3-none-any.whl"], [], []⟩) ∧
    (stepTarget catMy envOkay vMy =
      (([.installCmd "localhost:/v" "mypkg-1.0-py3-none-any.whl",
         .install "localhost:/v" "mypkg-1.0-py3-none-any.whl",
         .install "localhost:/v" "mypkg-1.0-py3-none-any.whl"] : List Event), true, .done)) ∧
    (([.installCmd "localhost:/v" "mypkg-1.0-py3-none-any.whl",
       .install "localhost:/v" "mypkg-1.0-py3-none-any.whl",
       .install "localhost:/v" "mypkg-1.0-py3-none-any.whl"] : List Event) =
      (["mypkg-1.0-py3-none-any.whl"].flatMap
        (fun w => [.installCmd vMy.name w, .install vMy.name w]))
        ++ ["mypkg-1.0-py3-none-any.whl"].map (fun w => .install vMy.name w)) :=
  ⟨by decide, by decide,
    C5_amended catMy envOkay vMy ⟨["mypkg-1.0-py3-none-any.whl"], [], []⟩
      ([.installCmd "localhost:/v" "mypkg-1.0-py3-none-any.whl",
        .install "localhost:/v" "mypkg-1.0-py3-none-any.whl",
        .install "localhost:/v" "mypkg-1.0-py3-none-any.whl"] : List Event) true
      (by decide) (by decide)⟩

/-- C4 at its failing input: one target with two installable wheels, the
first installs fine, the second fails.  The run terminates (uncaught
AttributeError raised while formatting the abort message), but NO
`aborting:` ledger entry is written - the claim's "exactly one aborting
entry naming that target" fails. -/
theorem C4_failing_input :
    (task_deploy catAB (fun _ => envBFail) (fun _ => false) [vAB] =
      ([.installCmd "localhost:/v" "a-1.0-py3-none-any.whl",
        .install "localhost:/v" "a-1.0-py3-none-any.whl",
        .installCmd "localhost:/v" "b-1.0-py3-none-any.whl"], .crashed)) ∧
    (countAborting "localhost:/v"
      (task_deploy catAB (fun _ => envBFail) (fun _ => false) [vAB]).1 = 0) := by
  exact ⟨by decide, by decide⟩

/-- C6 at its failing input: two targets on reload-once host h, both
updated successfully.  The host reload is issued after EACH target's
iteration (the reload loop is nested inside the target loop), so it runs
twice - and the first reload happens before the second target has been
processed at all. -/
theorem C6_failing_input :
    (task_deploy catMy (fun _ => envOkay) (fun _ => true) [vH1, vH2] =
      ([.installCmd "h:/a" "mypkg-1.0-py3-none-any.whl",
        .install "h:/a" "mypkg-1.0-py3-none-any.whl",
        .install "h:/a" "mypkg-1.0-py3-none-any.whl",
        .reload "h" "h:/a",
        .installCmd "h:/b" "mypkg-1.0-py3-none-any.whl",
        .install "h:/b" "mypkg-1.0-py3-none-any.whl",
        .install "h:/b" "mypkg-1.0-py3-none-any.whl",
        .reload "h" "h:/a"], .finished)) ∧
    (countReloads "h"
      (task_deploy catMy (fun _ => envOkay) (fun _ => true) [vH1, vH2]).1 = 2) := by
  exact ⟨by decide, by decide⟩

end Fabdeploy
